import Mathlib

/-!
Shallow embedding of src/chemprop/features/featurization.py.

Numeric feature entries are modelled as rationals (the Python code mixes ints,
bools and one float, the scaled atomic mass).  Fallible Python code is modelled
in the Except monad over an explicit error type mirroring the Python exception
classes that can be raised.  RDKit objects are modelled by records exposing
exactly the accessors the featurization code calls.
-/

/-- Python exceptions that the featurization code can raise. -/
inductive PyErr where
  | keyError (key : String)
  | attributeError (name : String)
  | typeError (msg : String)
  | indexError
  | valueError (msg : String)
  | notImplementedError (msg : String)
  | nameError (name : String)
deriving DecidableEq, Repr

/-- The reaction-mode NotImplementedError raises at featurization.py lines
303-307 are the only configuration-error sites in the code; the spec calls this
class of failure ConfigurationError. -/
def PyErr.isConfigError : PyErr → Bool
  | .notImplementedError _ => true
  | _ => false

/-- Python list indexing with a nonnegative index: out of range raises IndexError. -/
def pyGet {α : Type} (l : List α) (i : Nat) : Except PyErr α :=
  match l.get? i with
  | some x => .ok x
  | none => .error .indexError

/-- An RDKit atom, exposing the accessors atom_features and map_reac_to_prod
call: GetAtomicNum, GetTotalDegree, GetFormalCharge, GetChiralTag,
GetTotalNumHs, GetHybridization (as its integer value), GetIsAromatic, GetMass
and GetAtomMapNum. -/
structure Atom where
  atomicNum : Int
  totalDegree : Int
  formalCharge : Int
  chiralTag : Int
  totalNumHs : Int
  hybridization : Int
  isAromatic : Bool
  mass : ℚ
  atomMapNum : Nat
deriving DecidableEq, Repr

/-- An RDKit bond type as tested by bond_features (GetBondType never returns
Python None, so the `bt is not None` guards in the source are always true). -/
inductive BondType where
  | single
  | double
  | triple
  | aromatic
  | other
deriving DecidableEq, Repr

/-- An RDKit bond, exposing GetBondType, GetIsConjugated, IsInRing and
GetStereo (as its integer value). -/
structure Bond where
  bondType : BondType
  isConjugated : Bool
  isInRing : Bool
  stereo : Int
deriving DecidableEq, Repr

/-- An RDKit molecule as consumed by the featurization code: the atom list (in
index order) and the bond list (in bond-index order, each bond with its two
endpoint atom indices).  GetBondBetweenAtoms is a symmetric lookup in the bond
list; GetNumAtoms is the atom-list length. -/
structure Mol where
  atoms : List Atom
  bonds : List (Nat × Nat × Bond)
deriving DecidableEq, Repr

/-- mol.GetBondBetweenAtoms(a1, a2): the first stored bond joining the two atom
indices in either orientation, together with its bond index (GetIdx). -/
def Mol.getBondBetween (m : Mol) (a1 a2 : Nat) : Option (Nat × Bond) :=
  (m.bonds.enum.find? (fun ib =>
      (ib.2.1 = a1 ∧ ib.2.2.1 = a2) ∨ (ib.2.1 = a2 ∧ ib.2.2.1 = a1))).map
    (fun ib => (ib.1, ib.2.2.2))

/-- MAX_ATOMIC_NUM (featurization.py line 9). -/
def MAX_ATOMIC_NUM : Nat := 100

/-- The ATOM_FEATURES dictionary (featurization.py lines 11-24), modelled as a
string-keyed lookup.  The hybridization choices are the integer values of the
RDKit enum members SP, SP2, SP3, SP3D, SP3D2.  Note the key for the hydrogen
count is spelled num_Hs with a capital H. -/
def ATOM_FEATURES (key : String) : Option (List Int) :=
  if key = "atomic_num" then some ((List.range MAX_ATOMIC_NUM).map Int.ofNat)
  else if key = "degree" then some [0, 1, 2, 3, 4, 5]
  else if key = "formal_charge" then some [-1, -2, 1, 2, 0]
  else if key = "chiral_tag" then some [0, 1, 2, 3]
  else if key = "num_Hs" then some [0, 1, 2, 3, 4]
  else if key = "hybridization" then some [2, 3, 4, 5, 6]
  else none

/-- Python dictionary subscription on ATOM_FEATURES: a missing key raises
KeyError. -/
def atomFeaturesGet (key : String) : Except PyErr (List Int) :=
  match ATOM_FEATURES key with
  | some choices => .ok choices
  | none => .error (.keyError key)

/-- The insertion-ordered keys of the ATOM_FEATURES dictionary. -/
def atomFeatureKeys : List String :=
  ["atomic_num", "degree", "formal_charge", "chiral_tag", "num_Hs", "hybridization"]

/-- ATOM_FDIM (featurization.py line 33): sum over the dictionary values of
len(choices) + 1, plus 2 for aromaticity and mass. -/
def ATOM_FDIM : Nat :=
  (atomFeatureKeys.map (fun k => ((ATOM_FEATURES k).getD []).length + 1)).sum + 2

/-- BOND_FDIM (featurization.py line 35). -/
def BOND_FDIM : Nat := 14

/-- onek_encoding_unk (featurization.py lines 114-127): a zero list of length
len(choices) + 1 with a single 1 written at the position of value in choices,
or at the final position (Python index -1) when value is absent. -/
def onek_encoding_unk (value : Int) (choices : List Int) : List ℚ :=
  let index : Nat :=
    match choices.findIdx? (fun c => c = value) with
    | some k => k
    | none => choices.length
  (List.range (choices.length + 1)).map (fun j => if j = index then 1 else 0)

/-- atom_features (featurization.py lines 129-150).  A None atom yields the
all-zero vector of length ATOM_FDIM.  For a real atom the six one-hot blocks
are computed in source order; the fifth block subscripts the dictionary with
the key num_hs (line 144), which is not a key of ATOM_FEATURES (the stored key
is num_Hs), so the subscription raises KeyError. -/
def atom_features (atom : Option Atom) (functional_groups : Option (List ℚ)) :
    Except PyErr (List ℚ) :=
  match atom with
  | none => .ok (List.replicate ATOM_FDIM 0)
  | some a => do
      let c_num ← atomFeaturesGet "atomic_num"
      let c_deg ← atomFeaturesGet "degree"
      let c_chg ← atomFeaturesGet "formal_charge"
      let c_chi ← atomFeaturesGet "chiral_tag"
      let c_hs ← atomFeaturesGet "num_hs"
      let c_hyb ← atomFeaturesGet "hybridization"
      let features :=
        onek_encoding_unk (a.atomicNum - 1) c_num ++
        onek_encoding_unk a.totalDegree c_deg ++
        onek_encoding_unk a.formalCharge c_chg ++
        onek_encoding_unk a.chiralTag c_chi ++
        onek_encoding_unk a.totalNumHs c_hs ++
        onek_encoding_unk a.hybridization c_hyb ++
        [if a.isAromatic then 1 else 0] ++
        [a.mass * (1 / 100)]
      match functional_groups with
      | some fg => .ok (features ++ fg)
      | none => .ok features

/-- Conversion of a Python bool to a numeric feature entry. -/
def boolQ (b : Bool) : ℚ := if b then 1 else 0

/-- bond_features (featurization.py lines 152-173): total over its declared
domain.  A None bond yields the null-flagged vector [1, 0, ..., 0] of length
BOND_FDIM; a real bond yields the 7 flags followed by the stereo one-hot block
over choices 0..5. -/
def bond_features (bond : Option Bond) : List ℚ :=
  match bond with
  | none => 1 :: List.replicate (BOND_FDIM - 1) 0
  | some b =>
      [0,
       boolQ (b.bondType = .single),
       boolQ (b.bondType = .double),
       boolQ (b.bondType = .triple),
       boolQ (b.bondType = .aromatic),
       boolQ b.isConjugated,
       boolQ b.isInRing] ++
      onek_encoding_unk b.stereo ((List.range 6).map Int.ofNat)

/-- A carbon atom as produced by the molecule parser for an sp3 carbon of
ethane: atomic number 6, degree 1 heavy neighbor... degree 4 counting
hydrogens, no charge, no chirality, 3 hydrogens, SP3 hybridization, mass
12.011. -/
def carbonAtom : Atom :=
  { atomicNum := 6, totalDegree := 4, formalCharge := 0, chiralTag := 0,
    totalNumHs := 3, hybridization := 4, isAromatic := false,
    mass := 12011 / 1000, atomMapNum := 0 }

/-- A plain single bond. -/
def singleBond : Bond :=
  { bondType := .single, isConjugated := false, isInRing := false, stereo := 0 }

theorem onek_encoding_unk_length (value : Int) (choices : List Int) :
    (onek_encoding_unk value choices).length = choices.length + 1 := by
  simp [onek_encoding_unk]

theorem bond_features_null :
    bond_features none = 1 :: List.replicate (BOND_FDIM - 1) 0 := rfl

/-- C1: the atom and bond feature encoders are total: for every input in their
declared domains, atom_features and bond_features return a feature vector and
never raise.  Refuted by the code: the fifth categorical block of
atom_features subscripts ATOM_FEATURES with the key num_hs (line 144) while
the dictionary stores the key num_Hs (line 16), so featurizing any real atom
raises KeyError; only the None input survives.  The theorem evaluates the
embedded encoder at a concrete carbon atom and at None. -/
theorem c1_atom_features_raises_keyError :
    atom_features (some carbonAtom) none = .error (.keyError "num_hs") ∧
    atom_features none none = .ok (List.replicate ATOM_FDIM 0) := by
  constructor
  · rfl
  · rfl

/-- The process-wide feature-dimension configuration (the module globals
EXTRA_ATOM_FDIM, EXTRA_BOND_FDIM, REACTION_MODE, EXPLICIT_H, REACTION of
featurization.py lines 34-39), passed explicitly. -/
structure Config where
  reaction : Bool
  reactionMode : Option String
  explicitH : Bool
  extraAtomFdim : Nat
  extraBondFdim : Nat
deriving DecidableEq, Repr

/-- The module-load values of the globals (featurization.py lines 34-39). -/
def defaultConfig : Config :=
  { reaction := false, reactionMode := none, explicitH := false,
    extraAtomFdim := 0, extraBondFdim := 0 }

/-- set_reaction (featurization.py lines 59-76) as a configuration
transformer. -/
def set_reaction (reaction : Bool) (mode : String) (cfg : Config) : Config :=
  if reaction then
    { cfg with
      reaction := true
      reactionMode := some mode
      extraAtomFdim := ATOM_FDIM - MAX_ATOMIC_NUM - 1
      extraBondFdim := BOND_FDIM }
  else
    { cfg with reaction := false }

/-- get_atom_fdim (featurization.py lines 41-48):
(not overwrite_default_atom) * ATOM_FDIM + EXTRA_ATOM_FDIM. -/
def get_atom_fdim (cfg : Config) (overwrite_default_atom : Bool) : Nat :=
  (if overwrite_default_atom then 0 else ATOM_FDIM) + cfg.extraAtomFdim

/-- get_bond_fdim (featurization.py lines 96-107).  The definition consists
only of a signature and a docstring: the function body is missing, so in
Python the call falls through and returns None, modelled as Option.none. -/
def get_bond_fdim (atom_messages overwrite_default_bond overwrite_default_atom :
    Bool) : Option Nat :=
  none

/-- map_reac_to_prod (featurization.py lines 175-204).  The first loop
classifies product atoms.  In the second loop the try/except/else appends the
reactant atom index to only_reac_ids both when the dictionary lookup raises
KeyError (except clause) and when it succeeds (else clause), and the return
statement is indented inside the loop body, so the function returns during the
first iteration over the reactant atoms; when the reactant has no atoms the
loop body never runs and the function falls off the end, returning None. -/
def map_reac_to_prod (mol_reac mol_prod : Mol) :
    Option (List (Nat × Nat) × List Nat × List Nat) :=
  let mapnos_reac := mol_reac.atoms.map (fun a => a.atomMapNum)
  let classified := mol_prod.atoms.enum.foldl
    (fun (st : List Nat × List (Nat × Nat)) ia =>
      let mapno := ia.2.atomMapNum
      if mapno > 0 then
        let pmap :=
          if (st.2.lookup mapno).isSome then
            st.2.map (fun kv => if kv.1 = mapno then (mapno, ia.1) else kv)
          else st.2 ++ [(mapno, ia.1)]
        if mapno ∈ mapnos_reac then (st.1, pmap) else (st.1 ++ [ia.1], pmap)
      else (st.1 ++ [ia.1], st.2))
    ([], [])
  let only_prod_ids := classified.1
  let prod_map_to_id := classified.2
  match mol_reac.atoms with
  | [] => none
  | atom :: _ =>
      if atom.atomMapNum > 0 then
        match prod_map_to_id.lookup atom.atomMapNum with
        | some pidx => some ([(0, pidx)], only_prod_ids, [0])
        | none => some ([], only_prod_ids, [0])
      else
        some ([], only_prod_ids, [])

/-- The MolGraph record: the fields the constructor stores (featurization.py
lines 206-220). -/
structure MolGraph where
  n_atoms : Nat
  n_bonds : Nat
  f_atoms : List (List ℚ)
  f_bonds : List (List ℚ)
  a2b : List (List Nat)
  b2a : List Nat
  b2revb : List Nat
  overwrite_default_atom_features : Bool
  overwrite_default_bond_features : Bool
deriving DecidableEq, Repr

/-- Either a single molecule or a reactant/product pair, the two shapes the
MolGraph constructor accepts after SMILES parsing. -/
inductive MolInput where
  | single (m : Mol)
  | pair (reac prod : Mol)
deriving DecidableEq, Repr

/-- Python attribute lookup on an object: reading a name that was never bound
raises AttributeError. -/
def attrLookup (attrs : List (String × Bool)) (name : String) :
    Except PyErr Bool :=
  match attrs.lookup name with
  | some v => .ok v
  | none => .error (.attributeError name)

/-- The mutable state of the bond-construction loop shared by both branches of
the MolGraph constructor: f_bonds, a2b, b2a, b2revb and the running n_bonds. -/
structure BondLoopState where
  n_bonds : Nat
  f_bonds : List (List ℚ)
  a2b : List (List Nat)
  b2a : List Nat
  b2revb : List Nat
deriving DecidableEq, Repr

/-- The iteration space of the double loop
`for a1 in range(n): for a2 in range(a1 + 1, n):`. -/
def atomPairs (n : Nat) : List (Nat × Nat) :=
  (List.range n).flatMap
    (fun a1 => (List.range' (a1 + 1) (n - (a1 + 1))).map (fun a2 => (a1, a2)))

/-- One iteration of the non-reaction bond loop (featurization.py lines
273-299).  When extra bond features are supplied, both the overwrite branch
(line 284) and the concatenate branch (line 286) assign f_bond = descr: the
concatenate branch drops the computed default bond features. -/
def singleBondStep (m : Mol) (bond_features_extra : Option (List (List ℚ)))
    (overwrite_default_bond_features : Bool) (f_atoms : List (List ℚ))
    (st : BondLoopState) (p : Nat × Nat) : Except PyErr BondLoopState :=
  match m.getBondBetween p.1 p.2 with
  | none => .ok st
  | some (bidx, bond) => do
      let fb := bond_features (some bond)
      let f_bond ← match bond_features_extra with
        | none => .ok fb
        | some descs => do
            let descr ← pyGet descs bidx
            .ok (if overwrite_default_bond_features then descr else descr)
      let b1 := st.n_bonds
      let b2 := b1 + 1
      let a2b1 := st.a2b.set p.2 (st.a2b.getD p.2 [] ++ [b1])
      let a2b2 := a2b1.set p.1 (a2b1.getD p.1 [] ++ [b2])
      .ok { n_bonds := st.n_bonds + 2,
            f_bonds := st.f_bonds ++
              [f_atoms.getD p.1 [] ++ f_bond, f_atoms.getD p.2 [] ++ f_bond],
            a2b := a2b2,
            b2a := st.b2a ++ [p.1, p.2],
            b2revb := st.b2revb ++ [b2, b1] }

/-- The non-reaction branch of the MolGraph constructor (featurization.py
lines 256-302). -/
def MolGraph.buildSingle (m : Mol)
    (atom_features_extra bond_features_extra : Option (List (List ℚ)))
    (overwrite_default_atom_features overwrite_default_bond_features : Bool) :
    Except PyErr MolGraph := do
  let f_atoms_base ← m.atoms.mapM (fun a => atom_features (some a) none)
  let f_atoms := match atom_features_extra with
    | none => f_atoms_base
    | some descs =>
        if overwrite_default_atom_features then descs
        else (f_atoms_base.zip descs).map (fun p => p.1 ++ p.2)
  let n_atoms := f_atoms.length
  match atom_features_extra with
  | some descs =>
      if descs.length ≠ n_atoms then
        throw (.valueError
          "The number of atoms is different from the length of the extra atom features")
      else pure ()
  | none => pure ()
  let st0 : BondLoopState :=
    { n_bonds := 0, f_bonds := [], a2b := List.replicate n_atoms [],
      b2a := [], b2revb := [] }
  let st ← (atomPairs n_atoms).foldlM
    (singleBondStep m bond_features_extra overwrite_default_bond_features f_atoms)
    st0
  match bond_features_extra with
  | some descs =>
      if descs.length ≠ st.n_bonds / 2 then
        throw (.valueError
          "The number of bonds is different from the length of the extra bond features")
      else pure ()
  | none => pure ()
  .ok { n_atoms := n_atoms, n_bonds := st.n_bonds, f_atoms := f_atoms,
        f_bonds := st.f_bonds, a2b := st.a2b, b2a := st.b2a,
        b2revb := st.b2revb,
        overwrite_default_atom_features := overwrite_default_atom_features,
        overwrite_default_bond_features := overwrite_default_bond_features }

/-- Resolution of the reactant-side and product-side bonds for one atom pair in
the reaction bond loop (featurization.py lines 336-350): both atoms past the
reactant range index into pio; a mixed pair resolves the reactant atom through
ri2pi or yields no product bond when the reactant atom is unmapped; a pair
inside the reactant range reads the reactant bond directly and resolves the
product bond only when both atoms are mapped. -/
def reacBondPair (mol_reac mol_prod : Mol) (ri2pi : List (Nat × Nat))
    (pio : List Nat) (n_atoms_reac : Nat) (a1 a2 : Nat) :
    Except PyErr (Option Bond × Option Bond) :=
  if n_atoms_reac ≤ a1 ∧ n_atoms_reac ≤ a2 then do
    let p1 ← pyGet pio (a1 - n_atoms_reac)
    let p2 ← pyGet pio (a2 - n_atoms_reac)
    .ok (none, (mol_prod.getBondBetween p1 p2).map (fun ib => ib.2))
  else if a1 < n_atoms_reac ∧ n_atoms_reac ≤ a2 then
    match ri2pi.lookup a1 with
    | some pa1 => do
        let p2 ← pyGet pio (a2 - n_atoms_reac)
        .ok (none, (mol_prod.getBondBetween pa1 p2).map (fun ib => ib.2))
    | none => .ok (none, none)
  else
    let bond_reac := (mol_reac.getBondBetween a1 a2).map (fun ib => ib.2)
    match ri2pi.lookup a1, ri2pi.lookup a2 with
    | some pa1, some pa2 =>
        .ok (bond_reac, (mol_prod.getBondBetween pa1 pa2).map (fun ib => ib.2))
    | _, _ => .ok (bond_reac, none)

/-- The atom-feature combination of the reaction branch (featurization.py
lines 318-325): the if/elif chain over the three reaction modes; for any other
mode value self.f_atoms keeps its initial value, the empty list. -/
def combineAtomFeatures (mode : Option String)
    (f_atoms_reac f_atoms_prod : List (List ℚ)) : List (List ℚ) :=
  let f_atoms_diff := (f_atoms_prod.zip f_atoms_reac).map
    (fun p => (p.1.zip p.2).map (fun q => q.1 - q.2))
  if mode = some "reac_prod" then
    (f_atoms_reac.zip f_atoms_prod).map
      (fun p => p.1 ++ p.2.drop (MAX_ATOMIC_NUM + 1))
  else if mode = some "reac_diff" then
    (f_atoms_reac.zip f_atoms_diff).map
      (fun p => p.1 ++ p.2.drop (MAX_ATOMIC_NUM + 1))
  else if mode = some "prod_diff" then
    (f_atoms_prod.zip f_atoms_diff).map
      (fun p => p.1 ++ p.2.drop (MAX_ATOMIC_NUM + 1))
  else []

/-- The bond-feature combination of the reaction branch (featurization.py
lines 356-363).  For a mode outside the three recognised values no branch of
the if/elif chain assigns f_bond, and the later read of f_bond raises
NameError. -/
def combineBondFeatures (mode : Option String)
    (f_bond_reac f_bond_prod : List ℚ) : Except PyErr (List ℚ) :=
  let f_bond_diff := (f_bond_reac.zip f_bond_prod).map (fun p => p.2 - p.1)
  if mode = some "reac_prod" then .ok (f_bond_reac ++ f_bond_prod)
  else if mode = some "reac_diff" then .ok (f_bond_reac ++ f_bond_diff)
  else if mode = some "prod_diff" then .ok (f_bond_prod ++ f_bond_diff)
  else .error (.nameError "f_bond")

/-- One iteration of the reaction bond loop (featurization.py lines 334-376):
skip the pair when both sides are bond-less, otherwise featurize both sides,
combine per the reaction mode, and perform the same index updates as the
non-reaction loop. -/
def reactionBondStep (mode : Option String) (mol_reac mol_prod : Mol)
    (ri2pi : List (Nat × Nat)) (pio : List Nat) (n_atoms_reac : Nat)
    (f_atoms : List (List ℚ)) (st : BondLoopState) (p : Nat × Nat) :
    Except PyErr BondLoopState := do
  let bonds ← reacBondPair mol_reac mol_prod ri2pi pio n_atoms_reac p.1 p.2
  match bonds with
  | (none, none) => .ok st
  | (bond_reac, bond_prod) => do
      let f_bond_reac := bond_features bond_reac
      let f_bond_prod := bond_features bond_prod
      let f_bond ← combineBondFeatures mode f_bond_reac f_bond_prod
      let b1 := st.n_bonds
      let b2 := b1 + 1
      let a2b1 := st.a2b.set p.2 (st.a2b.getD p.2 [] ++ [b1])
      let a2b2 := a2b1.set p.1 (a2b1.getD p.1 [] ++ [b2])
      .ok { n_bonds := st.n_bonds + 2,
            f_bonds := st.f_bonds ++
              [f_atoms.getD p.1 [] ++ f_bond, f_atoms.getD p.2 [] ++ f_bond],
            a2b := a2b2,
            b2a := st.b2a ++ [p.1, p.2],
            b2revb := st.b2revb ++ [b2, b1] }

/-- The reaction branch of the MolGraph constructor (featurization.py lines
303-376). -/
def MolGraph.buildReaction (cfg : Config) (mol_reac mol_prod : Mol)
    (atom_features_extra bond_features_extra : Option (List (List ℚ)))
    (overwrite_default_atom_features overwrite_default_bond_features : Bool) :
    Except PyErr MolGraph := do
  if atom_features_extra.isSome then
    throw (.notImplementedError
      "Extra atom features are currently not supported for reactions")
  if bond_features_extra.isSome then
    throw (.notImplementedError
      "Extra bond features are currently not supported for reactions")
  let (ri2pi, pio, rio) ← match map_reac_to_prod mol_reac mol_prod with
    | some t => Except.ok t
    | none => .error (.typeError "cannot unpack non-iterable NoneType object")
  let f_atoms_reac_real ← mol_reac.atoms.mapM (fun a => atom_features (some a) none)
  let f_atoms_reac_pad ← pio.mapM (fun _ => atom_features none none)
  let f_atoms_reac := f_atoms_reac_real ++ f_atoms_reac_pad
  let f_atoms_prod_left ← mol_reac.atoms.enum.mapM (fun ia =>
    if ia.1 ∈ rio then atom_features none none
    else do
      let pidx ← match ri2pi.lookup ia.1 with
        | some v => Except.ok v
        | none => .error (.keyError (toString ia.1))
      let patom ← pyGet mol_prod.atoms pidx
      atom_features (some patom) none)
  let f_atoms_prod_right ← pio.mapM (fun i => do
    let patom ← pyGet mol_prod.atoms i
    atom_features (some patom) none)
  let f_atoms_prod := f_atoms_prod_left ++ f_atoms_prod_right
  let f_atoms := combineAtomFeatures cfg.reactionMode f_atoms_reac f_atoms_prod
  let n_atoms := f_atoms.length
  let n_atoms_reac := mol_reac.atoms.length
  let st0 : BondLoopState :=
    { n_bonds := 0, f_bonds := [], a2b := List.replicate n_atoms [],
      b2a := [], b2revb := [] }
  let st ← (atomPairs n_atoms).foldlM
    (reactionBondStep cfg.reactionMode mol_reac mol_prod ri2pi pio n_atoms_reac f_atoms)
    st0
  .ok { n_atoms := n_atoms, n_bonds := st.n_bonds, f_atoms := f_atoms,
        f_bonds := st.f_bonds, a2b := st.a2b, b2a := st.b2a,
        b2revb := st.b2revb,
        overwrite_default_atom_features := overwrite_default_atom_features,
        overwrite_default_bond_features := overwrite_default_bond_features }

/-- MolGraph.__init__ (featurization.py lines 222-376).  Lines 234-236 store
the attributes is_reaction and is_explicit_h on self; line 255 then reads
self.isreaction, an attribute name that was never bound, so the branch test
raises AttributeError before either branch body runs. -/
def MolGraph.build (cfg : Config) (mol : MolInput)
    (atom_features_extra bond_features_extra : Option (List (List ℚ)))
    (overwrite_default_atom_features overwrite_default_bond_features : Bool) :
    Except PyErr MolGraph := do
  let boolAttrs : List (String × Bool) :=
    [("is_reaction", cfg.reaction), ("is_explicit_h", cfg.explicitH)]
  let isreaction ← attrLookup boolAttrs "isreaction"
  if !isreaction then
    match mol with
    | .single m =>
        MolGraph.buildSingle m atom_features_extra bond_features_extra
          overwrite_default_atom_features overwrite_default_bond_features
    | .pair _ _ =>
        -- a tuple of molecules has no GetAtoms method
        .error (.attributeError "GetAtoms")
  else
    match mol with
    | .pair r p =>
        MolGraph.buildReaction cfg r p atom_features_extra bond_features_extra
          overwrite_default_atom_features overwrite_default_bond_features
    | .single _ =>
        -- mol[0] on a molecule object is not subscription
        .error (.typeError "Mol object is not subscriptable")

/-- The BatchMolGraph record: the fields the batch constructor stores
(featurization.py lines 378-441), with a2b in its final rectangular form. -/
structure BatchMolGraph where
  overwrite_default_atom_features : Bool
  overwrite_default_bond_features : Bool
  atom_fdim : Nat
  bond_fdim : Option Nat
  n_atoms : Nat
  n_bonds : Nat
  a_scope : List (Nat × Nat)
  b_scope : List (Nat × Nat)
  f_atoms : List (List ℚ)
  f_bonds : List (List ℚ)
  a2b : List (List Nat)
  b2a : List Nat
  b2revb : List Nat
  max_num_bonds : Nat
deriving DecidableEq, Repr

/-- The running state of the batch placement loop (featurization.py lines
404-430): the arrays under construction and the running atom and bond
counts. -/
structure BatchState where
  n_atoms : Nat
  n_bonds : Nat
  a_scope : List (Nat × Nat)
  b_scope : List (Nat × Nat)
  f_atoms : List (List ℚ)
  f_bonds : List (List ℚ)
  a2b : List (List Nat)
  b2a : List Nat
  b2revb : List Nat
deriving DecidableEq, Repr

/-- One iteration of the batch placement loop (featurization.py lines
416-430): append the feature rows unchanged, append each a2b list with edge
indices shifted by the running bond count, append b2a shifted by the running
atom count and b2revb shifted by the running bond count, record the scopes
from the pre-update running counts, then advance the counts. -/
def batchPlace (st : BatchState) (g : MolGraph) : BatchState :=
  { n_atoms := st.n_atoms + g.n_atoms,
    n_bonds := st.n_bonds + g.n_bonds,
    a_scope := st.a_scope ++ [(st.n_atoms, g.n_atoms)],
    b_scope := st.b_scope ++ [(st.n_bonds, g.n_bonds)],
    f_atoms := st.f_atoms ++ g.f_atoms,
    f_bonds := st.f_bonds ++ g.f_bonds,
    a2b := st.a2b ++ (List.range g.n_atoms).map
      (fun a => (g.a2b.getD a []).map (fun b => b + st.n_bonds)),
    b2a := st.b2a ++ (List.range g.n_bonds).map
      (fun b => st.n_atoms + g.b2a.getD b 0),
    b2revb := st.b2revb ++ (List.range g.n_bonds).map
      (fun b => st.n_bonds + g.b2revb.getD b 0) }

/-- The Python expression [0] * self.bond_fdim (featurization.py line 411):
bond_fdim is the return value of get_bond_fdim, which is None, and multiplying
a list by None raises TypeError. -/
def pyZerosTimes (n : Option Nat) : Except PyErr (List ℚ) :=
  match n with
  | some k => .ok (List.replicate k 0)
  | none => .error (.typeError "cannot multiply sequence by non-int of type NoneType")

/-- The a2b padding statement (featurization.py line 437).  The source line is
  self.a2b = torch.LongTensor([a2b[a] + [0]*(self.max_num_bonds - len(a2b[a])
  for a in range(self.n_atoms))])
in which the closing parenthesis of the multiplication sits after the for
clause, so the right operand of * is a generator expression and the leading
a2b[a] is evaluated in the enclosing scope.  There the name a is whatever the
placement loop of line 420 (for a in range(mol_graph.n_atoms)) left behind:
Python for-loop variables survive their loop, so a is bound to
n_atoms - 1 of the last molecule that had any atoms, and unbound only when no
molecule had atoms and that loop never ran (NameError).  When a is bound, the
statement reads a2b[a] (IndexError if out of range) and then multiplies [0] by
the generator expression, raising TypeError; the generator body, and with it
max_num_bonds, is never evaluated because the generator is never driven. -/
def rectangularize_a2b (a2b : List (List Nat)) (max_num_bonds n_atoms : Nat)
    (leaked_a : Option Nat) : Except PyErr (List (List Nat)) :=
  match leaked_a with
  | none => .error (.nameError "a")
  | some a => do
      let _ ← pyGet a2b a
      .error (.typeError "cannot multiply sequence by non-int of type generator")

/-- BatchMolGraph.__init__ (featurization.py lines 393-441).  Line 397 reads
mol_graphs[0] unconditionally; lines 399-400 compute the feature dimensions;
line 410 builds the zero sentinel atom row; line 411 builds the zero sentinel
bond row as [0] * self.bond_fdim, which raises TypeError because get_bond_fdim
returned None; the placement loop, the max_num_bonds computation (line 432,
with its floor of 1) and the a2b padding (line 437) follow in source order. -/
def BatchMolGraph.build (cfg : Config) (mol_graphs : List MolGraph) :
    Except PyErr BatchMolGraph := do
  let g0 ← pyGet mol_graphs 0
  let owa := g0.overwrite_default_atom_features
  let owb := g0.overwrite_default_bond_features
  let atom_fdim := get_atom_fdim cfg owa
  let bond_fdim := get_bond_fdim false owb owa
  let sentinel_atom_row : List ℚ := List.replicate atom_fdim 0
  let sentinel_bond_row ← pyZerosTimes bond_fdim
  let st0 : BatchState :=
    { n_atoms := 1, n_bonds := 1, a_scope := [], b_scope := [],
      f_atoms := [sentinel_atom_row], f_bonds := [sentinel_bond_row],
      a2b := [[]], b2a := [0], b2revb := [0] }
  let st := mol_graphs.foldl batchPlace st0
  -- the value the line-420 loop variable a holds after the placement loop:
  -- n_atoms - 1 of the last molecule with atoms, unbound if none had any
  let leaked_a := mol_graphs.foldl
    (fun acc g => if g.n_atoms > 0 then some (g.n_atoms - 1) else acc)
    (none : Option Nat)
  let max_num_bonds :=
    Nat.max 1 (((st.a2b.map List.length).foldl Nat.max 0))
  let a2bRect ← rectangularize_a2b st.a2b max_num_bonds st.n_atoms leaked_a
  .ok { overwrite_default_atom_features := owa,
        overwrite_default_bond_features := owb,
        atom_fdim := atom_fdim, bond_fdim := bond_fdim,
        n_atoms := st.n_atoms, n_bonds := st.n_bonds,
        a_scope := st.a_scope, b_scope := st.b_scope,
        f_atoms := st.f_atoms, f_bonds := st.f_bonds,
        a2b := a2bRect, b2a := st.b2a, b2revb := st.b2revb,
        max_num_bonds := max_num_bonds }

/-- BatchMolGraph.get_b2b (featurization.py lines 469-480): gather the a2b row
of each edge through b2a, build the mask (b2b != b2revb broadcast over the
row) and multiply elementwise. -/
def BatchMolGraph.get_b2b (B : BatchMolGraph) : List (List Nat) :=
  let b2b := B.b2a.map (fun a => B.a2b.getD a [])
  let revmask := (b2b.zip B.b2revb).map
    (fun p => p.1.map (fun e => if e ≠ p.2 then (1 : Nat) else 0))
  (b2b.zip revmask).map (fun p => p.1.zipWith (fun e m => e * m) p.2)

/-- BatchMolGraph.get_a2a (featurization.py lines 482-493): gather b2a at each
entry of a2b. -/
def BatchMolGraph.get_a2a (B : BatchMolGraph) : List (List Nat) :=
  B.a2b.map (fun row => row.map (fun b => B.b2a.getD b 0))

/-- A two-carbon molecule with one single bond (the ethane heavy-atom graph of
the spec examples). -/
def molCC : Mol :=
  { atoms := [carbonAtom, carbonAtom], bonds := [(0, 1, singleBond)] }

/-- Reactant atom A, carrying atom-mapping number 1. -/
def reacA : Atom := { carbonAtom with atomMapNum := 1 }

/-- Product atom A, carrying the same atom-mapping number 1. -/
def prodA : Atom := { carbonAtom with atomMapNum := 1 }

/-- The reactant A-B of the spec reaction example: atom B (index 1) is
unmapped. -/
def molReacAB : Mol :=
  { atoms := [reacA, carbonAtom], bonds := [(0, 1, singleBond)] }

/-- The product A-C of the spec reaction example: atom C (index 1) is
unmapped. -/
def molProdAC : Mol :=
  { atoms := [prodA, carbonAtom], bonds := [(0, 1, singleBond)] }

/-- The global configuration after set_reaction(True, reac_diff). -/
def reactionConfig : Config := set_reaction true "reac_diff" defaultConfig

/-- The MoleculeGraph of the spec example for ethane written directly as a
record: 2 atoms, directed edges 0 and 1 mutually reverse, a2b = [[1], [0]].
The feature rows are not consulted by the batch statements proved below. -/
def gCC : MolGraph :=
  { n_atoms := 2, n_bonds := 2, f_atoms := [[], []], f_bonds := [[], []],
    a2b := [[1], [0]], b2a := [0, 1], b2revb := [1, 0],
    overwrite_default_atom_features := false,
    overwrite_default_bond_features := false }

/-- A bond-less single-atom MoleculeGraph record. -/
def gLoneAtom : MolGraph :=
  { n_atoms := 1, n_bonds := 0, f_atoms := [[]], f_bonds := [],
    a2b := [[]], b2a := [], b2revb := [],
    overwrite_default_atom_features := false,
    overwrite_default_bond_features := false }

/-- The ethane graph record built under the opposite overwrite policy. -/
def gCCOverwrite : MolGraph :=
  { gCC with overwrite_default_atom_features := true,
             overwrite_default_bond_features := true }

/-- C2: for every successfully built MolGraph, b2revb[b2revb[b]] = b and
b2a[b2revb[b]] differs from b2a[b].  The code never reaches the loop that
establishes this: MolGraph.__init__ stores the attribute is_reaction (line
234) but branches on self.isreaction (line 255), a name that was never bound,
so every construction raises AttributeError and no MolGraph is ever
successfully built.  The theorem evaluates the constructor on the ethane
molecule. -/
theorem c2_molgraph_build_always_raises :
    MolGraph.build defaultConfig (.single molCC) none none false false =
      .error (.attributeError "isreaction") := rfl

/-- C3: placed b2a, b2revb and a2b entries are the original values shifted by
the running atom and edge offsets.  The code never executes the placement
loop: BatchMolGraph.__init__ line 411 computes the sentinel bond row as
[0] * self.bond_fdim where bond_fdim is the return value of the body-less
get_bond_fdim, i.e. None, so construction raises TypeError before any molecule
is placed.  The theorem evaluates the batch constructor on a one-graph
batch. -/
theorem c3_batch_build_raises_before_placement :
    BatchMolGraph.build defaultConfig [gCC] =
      .error (.typeError "cannot multiply sequence by non-int of type NoneType") := rfl

/-- C4: max_num_bonds is the maximum incoming-edge-list length floored at 1
and a2b is right-padded to that width.  Construction never gets there: line
411 raises TypeError first, and the padding statement itself (line 437) is
malformed, with the closing parenthesis of the multiplication misplaced after
the for clause, so even if reached it would read a2b at the loop variable a
leaked from the line-420 placement loop and then raise TypeError from
multiplying [0] by the generator expression (NameError instead when no
molecule had atoms, leaving a unbound).  The theorem evaluates the batch
constructor on a batch of two bond-less single-atom graphs, and the embedded
line-437 statement at the state that batch would reach (a2b with the sentinel
and two atom rows, leaked a = 0) and at the no-atoms state. -/
theorem c4_padding_never_runs :
    BatchMolGraph.build defaultConfig [gLoneAtom, gLoneAtom] =
      .error (.typeError "cannot multiply sequence by non-int of type NoneType") ∧
    rectangularize_a2b [[], [], []] 1 3 (some 0) =
      .error (.typeError "cannot multiply sequence by non-int of type generator") ∧
    rectangularize_a2b [[]] 1 1 none = .error (.nameError "a") :=
  ⟨rfl, rfl, rfl⟩

/-- C5: the builder partitions atoms into reactant-only, product-only and
in-both classes from the atom-mapping numbers.  Refuted by map_reac_to_prod:
on the spec example (reactant A-B with B unmapped, product A-C) the returned
classes are ri2pi = [(0, 0)], only_prod = [1] and only_reac = [0]: atom A
(index 0), which is mapped on both sides, lands in the only-reactant class,
and the unmapped atom B (index 1) is not classified at all, because the
try/except/else appends to only_reac_ids exactly when the dictionary lookup
succeeds and the return statement inside the loop stops classification after
the first reactant atom.  Downstream, MolGraph construction raises
AttributeError (line 255) before the reaction branch could run at all. -/
theorem c5_map_reac_to_prod_misclassifies :
    map_reac_to_prod molReacAB molProdAC = some ([(0, 0)], [1], [0]) ∧
    (1 : Nat) ∉ ([0] : List Nat) ∧
    MolGraph.build reactionConfig (.pair molReacAB molProdAC) none none false false =
      .error (.attributeError "isreaction") :=
  ⟨rfl, by decide, rfl⟩

/-- C6 counterexample: two graph records built under different
feature-dimension configurations (opposite overwrite flags).  Batch
construction does not raise a configuration error: it raises the TypeError of
line 411, which is unrelated to the mixed configuration. -/
theorem c6_counterexample_no_config_error :
    gCC.overwrite_default_atom_features ≠ gCCOverwrite.overwrite_default_atom_features ∧
    BatchMolGraph.build defaultConfig [gCC, gCCOverwrite] =
      .error (.typeError "cannot multiply sequence by non-int of type NoneType") ∧
    (PyErr.typeError "cannot multiply sequence by non-int of type NoneType").isConfigError
      = false :=
  ⟨by decide, rfl, rfl⟩

/-- C6 amended: BatchMolGraph.__init__ performs no configuration-consistency
check at all; it unconditionally adopts the overwrite flags of the first graph
(lines 397-398) and never compares them with those of the rest.  In this code
every nonempty batch construction then fails with the same TypeError from the
body-less get_bond_fdim, whether or not the configurations are mixed. -/
theorem c6_no_mixed_configuration_check (cfg : Config) (g : MolGraph)
    (gs : List MolGraph) :
    BatchMolGraph.build cfg (g :: gs) =
      .error (.typeError "cannot multiply sequence by non-int of type NoneType") := rfl

/-- C7: in reaction mode with extra atom or bond features supplied,
construction fails fast at graph-construction time, but not with the intended
configuration error: the AttributeError of line 255 (self.isreaction) is
raised before the NotImplementedError guards of lines 303-307 are reached, so
the raised error is not a configuration error. -/
theorem c7_reaction_extra_features_wrong_error :
    MolGraph.build reactionConfig (.pair molReacAB molProdAC)
        (some [[1]]) none false false =
      .error (.attributeError "isreaction") ∧
    (PyErr.attributeError "isreaction").isConfigError = false :=
  ⟨rfl, rfl⟩

/-- C9: a mismatched extra-feature array length should raise a data-integrity
error at construction time.  The length checks (lines 265-266 and 300-302) are
unreachable: construction raises AttributeError at line 255 first.  Even with
that branch test bypassed, the non-reaction branch featurizes every atom at
line 257 before the length check, and atom_features raises KeyError for every
real atom, so the ValueError still would not be reached.  The theorem
evaluates the constructor and the bare non-reaction branch on ethane with
three extra atom-feature rows for its two atoms. -/
theorem c9_length_check_unreachable :
    MolGraph.build defaultConfig (.single molCC)
        (some [[1], [2], [3]]) none false false =
      .error (.attributeError "isreaction") ∧
    MolGraph.buildSingle molCC (some [[1], [2], [3]]) none false false =
      .error (.keyError "num_hs") :=
  ⟨rfl, rfl⟩

/-- C10: constructing a BatchMolGraph from the empty list fails rather than
returning a sentinel-only batch: line 397 reads mol_graphs[0] unconditionally,
which raises IndexError for the empty list, before anything else happens. -/
theorem c10_batch_empty_raises_indexError (cfg : Config) :
    BatchMolGraph.build cfg [] = .error .indexError := rfl

theorem zipWith_mul_mask (rev : Nat) (l : List Nat) :
    l.zipWith (fun e m => e * m)
        (l.map (fun e => if e ≠ rev then (1 : Nat) else 0)) =
      l.map (fun e => if e = rev then 0 else e) := by
  induction l with
  | nil => rfl
  | cons x xs ih =>
      simp only [List.map_cons, List.zipWith_cons_cons, ih, List.cons.injEq,
        and_true]
      by_cases hx : x = rev
      · simp [hx]
      · simp [hx]

theorem not_mem_map_mask (rev : Nat) (hrev : rev ≠ 0) (l : List Nat) :
    rev ∉ l.map (fun e => if e = rev then 0 else e) := by
  intro hmem
  rcases List.mem_map.mp hmem with ⟨e, _, he⟩
  by_cases h : e = rev
  · rw [if_pos h] at he
    exact hrev he.symm
  · rw [if_neg h] at he
    exact h he

/-- C8: for every batch record and every edge index b in range of b2a and
b2revb, row b of the derived b2b mapping equals the rectangular a2b row of the
origin atom of b with every entry equal to b2revb[b] replaced by 0, and when
b2revb[b] is not the padding sentinel 0 (true of every real edge, whose
reverse is a real edge), the reverse edge of b does not occur among the
entries of the row. -/
theorem c8_get_b2b_masks_reverse (B : BatchMolGraph) (b : Nat)
    (h1 : b < B.b2a.length) (h2 : b < B.b2revb.length) :
    B.get_b2b.getD b [] =
      (B.a2b.getD (B.b2a.getD b 0) []).map
        (fun e => if e = B.b2revb.getD b 0 then 0 else e) ∧
    (B.b2revb.getD b 0 ≠ 0 → B.b2revb.getD b 0 ∉ B.get_b2b.getD b []) := by
  have hmain : B.get_b2b.getD b [] =
      (B.a2b.getD (B.b2a.getD b 0) []).map
        (fun e => if e = B.b2revb.getD b 0 then 0 else e) := by
    show (((B.b2a.map (fun a => B.a2b.getD a [])).zip
        (((B.b2a.map (fun a => B.a2b.getD a [])).zip B.b2revb).map
          (fun p => p.1.map (fun e => if e ≠ p.2 then (1 : Nat) else 0)))).map
        (fun p => p.1.zipWith (fun e m => e * m) p.2)).getD b [] = _
    have hz : b < ((B.b2a.map (fun a => B.a2b.getD a [])).zip B.b2revb).length := by
      simp only [List.length_zip, List.length_map]
      omega
    have hfinal : b < (((B.b2a.map (fun a => B.a2b.getD a [])).zip
        (((B.b2a.map (fun a => B.a2b.getD a [])).zip B.b2revb).map
          (fun p => p.1.map (fun e => if e ≠ p.2 then (1 : Nat) else 0)))).map
        (fun p => p.1.zipWith (fun e m => e * m) p.2)).length := by
      simp only [List.length_map, List.length_zip]
      omega
    rw [List.getD_eq_getElem _ _ hfinal]
    simp only [List.getElem_map, List.getElem_zip]
    rw [zipWith_mul_mask]
    rw [List.getD_eq_getElem B.b2a 0 h1, List.getD_eq_getElem B.b2revb 0 h2]
  refine ⟨hmain, fun hrev hmem => ?_⟩
  rw [hmain] at hmem
  exact not_mem_map_mask _ hrev _ hmem

/-- A small hand-written batch record with the shape the collator is meant to
produce for one ethane molecule: sentinel row 0, two atoms, two mutually
reverse edges. -/
def wBatch : BatchMolGraph :=
  { overwrite_default_atom_features := false,
    overwrite_default_bond_features := false,
    atom_fdim := ATOM_FDIM, bond_fdim := none, n_atoms := 3, n_bonds := 3,
    a_scope := [(1, 2)], b_scope := [(1, 2)],
    f_atoms := [], f_bonds := [],
    a2b := [[0], [2], [1]], b2a := [0, 1, 2], b2revb := [0, 2, 1],
    max_num_bonds := 1 }

theorem c8_get_b2b_masks_reverse_witness :
    1 < wBatch.b2a.length ∧ 1 < wBatch.b2revb.length ∧
    (wBatch.get_b2b.getD 1 [] =
      (wBatch.a2b.getD (wBatch.b2a.getD 1 0) []).map
        (fun e => if e = wBatch.b2revb.getD 1 0 then 0 else e) ∧
    (wBatch.b2revb.getD 1 0 ≠ 0 →
      wBatch.b2revb.getD 1 0 ∉ wBatch.get_b2b.getD 1 [])) :=
  ⟨by decide, by decide, c8_get_b2b_masks_reverse wBatch 1 (by decide) (by decide)⟩
